import Mathlib

/-!
Shallow embedding of `src/print.ts` (printer discovery and image-print
submission over the CUPS command-line surface) and proofs of the frozen
claims about it.

Strings from the underlying shell commands are modelled as Lean `String`s;
the JavaScript regular expressions used by the source are modelled by
executable scanning functions over `List Char` that reproduce the
leftmost-match / greedy / lazy backtracking behaviour of each concrete
pattern.  Side effects (shell commands, temp-file writes, unlinks) are
modelled by an explicit environment record plus an event trace.
-/

namespace PrintTs

/-! ## Character and string helpers (models of JS string primitives) -/

/-- Model of JavaScript `hay.includes(needle)` on exploded strings. -/
def includesChars (hay needle : List Char) : Bool :=
  if needle.isPrefixOf hay then true
  else
    match hay with
    | [] => false
    | _ :: t => includesChars t needle

/-- Model of JavaScript `s.toLowerCase()` restricted to ASCII case folding. -/
def lowerChars (l : List Char) : List Char := l.map Char.toLower

/-- Model of `s.toLowerCase().includes(sub)` — case-insensitive containment as used
for the USB check and the paused/disabled check. -/
def containsCI (s sub : String) : Bool := includesChars (lowerChars s.data) sub.data

/-- Model of JavaScript `s.split("\n")` (keeps empty pieces, `"" ↦ [""]`). -/
def splitNl : List Char → List (List Char)
  | [] => [[]]
  | c :: rest =>
    match splitNl rest with
    | [] => [[]]
    | h :: t => if c = '\n' then [] :: h :: t else (c :: h) :: t

/-- Model of JavaScript `s.trim()` (ASCII whitespace). -/
def trimChars (l : List Char) : List Char :=
  ((l.dropWhile Char.isWhitespace).reverse.dropWhile Char.isWhitespace).reverse

/-! ## Models of the concrete regular expressions in `print.ts` -/

/-- Split a char list at the first space: `breakAtSpace "ab cd" = some ("ab", "cd")`. -/
def breakAtSpace : List Char → Option (List Char × List Char)
  | [] => none
  | c :: cs =>
    if c = ' ' then some ([], cs)
    else (breakAtSpace cs).map (fun p => (c :: p.1, p.2))

/-- The suffix part of `/printer (.+?) (.*)/` applied right after the
literal `"printer "`: the lazy group takes the characters up to the first
space at index ≥ 1; the rest of the line is the second group. -/
def matchNameStatus (r : List Char) : Option (List Char × List Char) :=
  match r with
  | [] => none
  | c :: cs => (breakAtSpace cs).map (fun p => (c :: p.1, p.2))

/-- Model of `line.match(/printer (.+?) (.*)/)`: scan for the leftmost
occurrence of the literal `"printer "` at which the rest of the pattern
also matches; on an inner failure the scan resumes one character later,
as the JS regex engine does. -/
def matchPrinterLine : List Char → Option (List Char × List Char)
  | [] => none
  | l@(_ :: rest) =>
    if ("printer ".data).isPrefixOf l then
      match matchNameStatus (l.drop 8) with
      | some r => some r
      | none => matchPrinterLine rest
    else matchPrinterLine rest

/-- Split at the first `": "` that sits at index ≥ 0 and is followed by at
least one character (the `(.+?): (.+)` tail of the device regex). -/
def breakAtColonSpace : List Char → Option (List Char × List Char)
  | [] => none
  | ':' :: ' ' :: d :: rest => some ([], d :: rest)
  | c :: cs => (breakAtColonSpace cs).map (fun p => (c :: p.1, p.2))

/-- Model of `deviceLine.match(/device for (.+?): (.+)/)`. -/
def matchDeviceFor : List Char → Option (List Char × List Char)
  | [] => none
  | l@(_ :: rest) =>
    if ("device for ".data).isPrefixOf l then
      match
        (match l.drop 11 with
         | [] => none
         | c :: cs => (breakAtColonSpace cs).map (fun p => (c :: p.1, p.2))) with
      | some r => some r
      | none => matchDeviceFor rest
    else matchDeviceFor rest

/-- Model of `s.match(/system default destination: (.+)/)` (and the same
shape for other `<literal>(.+)` patterns): leftmost occurrence of the
literal followed by at least one non-newline character; the greedy group
captures up to the end of the line. -/
def matchAfterLit (lit : List Char) : List Char → Option (List Char)
  | [] => none
  | l@(_ :: rest) =>
    if lit.isPrefixOf l then
      let cap := (l.drop lit.length).takeWhile (fun c => c ≠ '\n')
      if cap.isEmpty then matchAfterLit lit rest else some cap
    else matchAfterLit lit rest

/-- Maximal digit prefix (the greedy `\d+` group). -/
def digitPrefix : List Char → List Char
  | [] => []
  | c :: cs => if c.isDigit then c :: digitPrefix cs else []

/-- The `.+-(\d+)` tail of the job-id regex, applied right after the
literal `"request id is "`: the greedy `.+` (which cannot cross a
newline) backtracks to the last `'-'` on the line that sits at index ≥ 1
and is followed by a digit; the capture is the maximal digit run there. -/
def lastDashDigits (seen : Option (List Char)) (atLeastOne : Bool) :
    List Char → Option (List Char)
  | [] => seen
  | c :: cs =>
    if c = '\n' then seen
    else
      let isCand := c == '-' && atLeastOne &&
        (match cs with | d :: _ => d.isDigit | [] => false)
      lastDashDigits (if isCand then some (digitPrefix cs) else seen) true cs

/-- Model of `stdout.match(/request id is .+-(\d+)/)`, returning the first
capture group of the leftmost successful match. -/
def matchRequestId : List Char → Option (List Char)
  | [] => none
  | l@(_ :: rest) =>
    if ("request id is ".data).isPrefixOf l then
      match lastDashDigits none false (l.drop 14) with
      | some d => some d
      | none => matchRequestId rest
    else matchRequestId rest

/-- Job-id extraction of `printImage`: the digit group of the
acknowledgement pattern, falling back to the trimmed raw output. -/
def extractJobId (stdout : String) : String :=
  match matchRequestId stdout.data with
  | some d => String.mk d
  | none => String.mk (trimChars stdout.data)

/-! ## Printer directory (`getAllPrinters` parse) -/

/-- The `Printer` interface of `print.ts`.  `description` is optional in
the source but is always populated (with the status text) by
`getAllPrinters`, so it is modelled as a plain `String`. -/
structure Printer where
  name : String
  uri : String
  status : String
  isDefault : Bool
  isUSB : Bool
  description : String
deriving Repr, DecidableEq

/-- The default destination parsed out of the `lpstat -p -d` report by
`printerList.match(/system default destination: (.+)/)`. -/
def defaultOf (printerList : String) : Option String :=
  (matchAfterLit ("system default destination: ".data) printerList.data).map String.mk

/-- One record of the directory listing, built from a matched
`printer <name> <status>` line exactly as the loop body of
`getAllPrinters` does. -/
def mkPrinter (defaultPrinter : String) (deviceLines : List (List Char))
    (nmst : List Char × List Char) : Printer :=
  let printerName := String.mk nmst.1
  let status := if nmst.2.isEmpty then "unknown" else String.mk nmst.2
  let deviceLine := deviceLines.find? (fun d => includesChars d printerName.data)
  let uriUSB : String × Bool :=
    match deviceLine with
    | none => ("", false)
    | some d =>
      match matchDeviceFor d with
      | none => ("", false)
      | some um => (String.mk um.2, includesChars (lowerChars um.2) ("usb".data))
  { name := printerName
    uri := uriUSB.1
    status := status
    isDefault := printerName == defaultPrinter
    isUSB := uriUSB.2
    description := status }

/-- The pure parsing core of `getAllPrinters`, taking the textual outputs
of `lpstat -p -d` and `lpstat -v` and producing the printer records. -/
def parsePrinters (printerList printerDevices : String) : List Printer :=
  (splitNl printerList.data).filterMap
    (fun line =>
      (matchPrinterLine line).map
        (mkPrinter ((defaultOf printerList).getD "") (splitNl printerDevices.data)))

/-- The printer names matched out of the `lpstat -p -d` report, in report
order (the names the records of `parsePrinters` carry). -/
def parsedNames (printerList : String) : List String :=
  (splitNl printerList.data).filterMap
    (fun line => (matchPrinterLine line).map (fun x => String.mk x.1))

/-! ## Print options and command construction -/

/-- The `PrintOptions` interface.  JS `undefined` is `none`; the custom
CUPS options mapping is modelled as an association list in
`Object.entries` iteration order. -/
structure PrintOptions where
  copies : Option Nat := none
  media : Option String := none
  grayscale : Bool := false
  fitToPage : Bool := false
  cupOptions : Option (List (String × String)) := none
deriving Repr, DecidableEq

/-- Model of `buildPrintCommand`, mirroring the source's successive `args.push`
calls (note the JS truthiness tests: `options.copies && options.copies > 1`
and `options.media`, under which `0` copies and an empty media string are
skipped). -/
def buildPrintCommand (printerName imagePath : String)
    (options : PrintOptions) : String :=
  let args : List String := ["lp"]
  let args := args ++ ["-d", "\"" ++ printerName ++ "\""]
  let args := args ++
    (match options.copies with
     | some c => if 1 < c then ["-n", toString c] else []
     | none => [])
  let args := args ++
    (match options.media with
     | some m => if m = "" then [] else ["-o", "media=" ++ m]
     | none => [])
  let args := args ++ (if options.grayscale then ["-o", "ColorModel=Gray"] else [])
  let args := args ++ (if options.fitToPage then ["-o", "fit-to-page"] else [])
  let args := args ++
    (match options.cupOptions with
     | some kvs => kvs.flatMap (fun kv => ["-o", kv.1 ++ "=" ++ kv.2])
     | none => [])
  let args := args ++ ["\"" ++ imagePath ++ "\""]
  String.intercalate " " args

/-- An argument wrapped in double quotes, as the source interpolates the
printer name and the file path. -/
def quoteArg (s : String) : String := "\"" ++ s ++ "\""

/-- Spec wording: the destination flag. -/
def destinationFlags (printerName : String) : List String := ["-d", quoteArg printerName]

/-- Spec wording: the copies flag, emitted only when copies > 1. -/
def copiesFlags (options : PrintOptions) : List String :=
  match options.copies with
  | some c => if 1 < c then ["-n", toString c] else []
  | none => []

/-- Spec wording: the media flag, only when a (non-empty) media is set. -/
def mediaFlags (options : PrintOptions) : List String :=
  match options.media with
  | some m => if m = "" then [] else ["-o", "media=" ++ m]
  | none => []

/-- Spec wording: the fixed grayscale flag. -/
def grayscaleFlags (options : PrintOptions) : List String :=
  if options.grayscale then ["-o", "ColorModel=Gray"] else []

/-- Spec wording: the fixed fit-to-page flag. -/
def fitToPageFlags (options : PrintOptions) : List String :=
  if options.fitToPage then ["-o", "fit-to-page"] else []

/-- Spec wording: each open-ended option pair as `-o key=value`, in
mapping-iteration order. -/
def cupFlags (options : PrintOptions) : List String :=
  match options.cupOptions with
  | some kvs => kvs.flatMap (fun kv => ["-o", kv.1 ++ "=" ++ kv.2])
  | none => []

/-! ## Validation (`validateImageFile`) -/

/-- The basename of a path (the part after the last `/`; the model covers
paths without a trailing slash, which is all the source ever passes). -/
def basenameChars (p : List Char) : List Char :=
  (p.reverse.takeWhile (fun c => c ≠ '/')).reverse

/-- Model of Node's `path.extname`: from the last `.` of the basename to
the end, empty when there is no dot or the only dot is the leading
character, with `".."` special-cased to the empty extension as Node does. -/
def extnameChars (p : List Char) : List Char :=
  let b := basenameChars p
  if b = ['.', '.'] then []
  else
    let suf := b.reverse.takeWhile (fun c => c ≠ '.')
    if suf.length = b.length then []
    else if b.length = suf.length + 1 then []
    else '.' :: suf.reverse

/-- Model of `path.extname(filePath).toLowerCase()`. -/
def extLower (filePath : String) : String :=
  String.mk (lowerChars (extnameChars filePath.data))

/-- The fixed allow-list of `validateImageFile`. -/
def supportedFormats : List String :=
  [".png", ".jpg", ".jpeg", ".gif", ".pdf", ".tiff", ".tif"]

/-- The error taxonomy the claims distinguish (the source encodes these as
message strings wrapped in `Failed to print: ...`). -/
inductive PrintErr where
  | fileNotFound (path : String)
  | unsupportedFormat (ext : String)
  | printersQueryFailed (msg : String)
  | printerNotFound (name : String)
  | commandFailed (msg : String)
  | noPrintersFound
deriving Repr, DecidableEq

/-- Decidable equality of fallible results, for evaluating the model on
concrete inputs. -/
instance {ε α : Type} [DecidableEq ε] [DecidableEq α] : DecidableEq (Except ε α) :=
  fun a b =>
    match a, b with
    | Except.ok x, Except.ok y =>
      if h : x = y then isTrue (by rw [h]) else isFalse (by intro hc; cases hc; exact h rfl)
    | Except.error x, Except.error y =>
      if h : x = y then isTrue (by rw [h]) else isFalse (by intro hc; cases hc; exact h rfl)
    | Except.ok _, Except.error _ => isFalse (by intro hc; cases hc)
    | Except.error _, Except.ok _ => isFalse (by intro hc; cases hc)

/-- Model of `validateImageFile`: `fs.promises.access` is modelled by membership in
the set of readable files (a missing file raises `ENOENT`, mapped to the
file-not-found error by the catch clause); only then is the lowercased
extension tested against the allow-list. -/
def validateImageFile (files : List String) (filePath : String) : Except PrintErr Unit :=
  if filePath ∈ files then
    let ext := extLower filePath
    if supportedFormats.contains ext then Except.ok ()
    else Except.error (PrintErr.unsupportedFormat ext)
  else Except.error (PrintErr.fileNotFound filePath)

/-! ## The submission model (`printImage`, `printToUSB`) -/

/-- The `string | Buffer` input of `printImage`; buffer bytes are carried
only so the temp-file write can record them (no branch inspects them). -/
inductive ImageInput where
  | path (p : String)
  | buffer (data : List Nat)
deriving Repr, DecidableEq

/-- Observable events of one submission call, in order. -/
inductive Ev where
  | validate (path : String)
  | writeTemp (path : String) (data : List Nat)
  | exec (cmd : String)
  | unlink (path : String)
deriving Repr, DecidableEq

/-- The external world one `printImage`/`printToUSB` call runs against:
the readable files, the nondeterministic ingredients of the temp-file
name, the outcome of the two `lpstat` listing commands, the outcome of
the `lp` submission command, and whether the final `unlink` succeeds. -/
structure SysEnv where
  files : List String
  tmpdir : String
  timestamp : Nat
  randomId : String
  lpstatRes : Except String (String × String)
  lpRes : Except String String
  unlinkOk : Bool

/-- The staged temporary path: the process temp directory joined with
`print-temp-` + timestamp + `-` + random id + `.png`. -/
def tempFileName (env : SysEnv) : String :=
  env.tmpdir ++ "/print-temp-" ++ toString env.timestamp ++ "-" ++ env.randomId ++ ".png"

/-- Result of one submission call: the returned job id or error, the
ordered event trace, the readable files after the call, and the warnings
logged by the cleanup step. -/
structure PrintOutcome where
  result : Except PrintErr String
  trace : List Ev
  fsAfter : List String
  warnings : List String
deriving Repr

/-- Model of `printImage`: buffer staging or path validation, the directory
re-query, the printer-existence check, command construction and
invocation, job-id extraction, and the `finally` cleanup of the temp
file (whose failure is only logged). -/
def printImage (env : SysEnv) (printerName : String) (input : ImageInput)
    (options : PrintOptions) : PrintOutcome :=
  let staged : Except PrintErr String × List Ev × List String × Option String :=
    match input with
    | ImageInput.buffer data =>
      let tfp := tempFileName env
      (Except.ok tfp, [Ev.writeTemp tfp data], tfp :: env.files, some tfp)
    | ImageInput.path p =>
      match validateImageFile env.files p with
      | Except.ok _ => (Except.ok p, [Ev.validate p], env.files, none)
      | Except.error e => (Except.error e, [Ev.validate p], env.files, none)
  let main : Except PrintErr String × List Ev :=
    match staged.1 with
    | Except.error e => (Except.error e, [])
    | Except.ok imagePath =>
      let t := [Ev.exec "lpstat -p -d", Ev.exec "lpstat -v"]
      match env.lpstatRes with
      | Except.error msg => (Except.error (PrintErr.printersQueryFailed msg), t)
      | Except.ok pdv =>
        let printers := parsePrinters pdv.1 pdv.2
        match printers.find? (fun pr => pr.name == printerName) with
        | none => (Except.error (PrintErr.printerNotFound printerName), t)
        | some _ =>
          let cmd := buildPrintCommand printerName imagePath options
          match env.lpRes with
          | Except.error msg => (Except.error (PrintErr.commandFailed msg), t ++ [Ev.exec cmd])
          | Except.ok stdout => (Except.ok (extractJobId stdout), t ++ [Ev.exec cmd])
  match staged.2.2.2 with
  | none =>
    { result := main.1, trace := staged.2.1 ++ main.2
      fsAfter := staged.2.2.1, warnings := [] }
  | some tfp =>
    if env.unlinkOk then
      { result := main.1, trace := staged.2.1 ++ main.2 ++ [Ev.unlink tfp]
        fsAfter := (staged.2.2.1).erase tfp, warnings := [] }
    else
      { result := main.1, trace := staged.2.1 ++ main.2 ++ [Ev.unlink tfp]
        fsAfter := staged.2.2.1
        warnings := ["Warning: Could not delete temporary file: " ++ tfp] }

/-- The result component of `printImage` after staging/validation has
succeeded: directory query, existence check, command invocation, job-id
extraction.  (The job-id result does not depend on the image path, which
only enters the command string.) -/
def submitResult (env : SysEnv) (printerName : String) : Except PrintErr String :=
  match env.lpstatRes with
  | Except.error msg => Except.error (PrintErr.printersQueryFailed msg)
  | Except.ok pdv =>
    match (parsePrinters pdv.1 pdv.2).find? (fun pr => pr.name == printerName) with
    | none => Except.error (PrintErr.printerNotFound printerName)
    | some _ =>
      match env.lpRes with
      | Except.error msg => Except.error (PrintErr.commandFailed msg)
      | Except.ok stdout => Except.ok (extractJobId stdout)

/-- Result of one `printToUSB` call. -/
structure USBOutcome where
  result : Except PrintErr (String × String)
  trace : List Ev
  fsAfter : List String
  warnings : List String
deriving Repr

/-- Model of `printToUSB`: query the directory, fail on an empty list, pick the
default printer if any, else the first record, and delegate to
`printImage` (which re-queries the directory itself). -/
def printToUSB (env : SysEnv) (input : ImageInput) (options : PrintOptions) : USBOutcome :=
  let t0 : List Ev := [Ev.exec "lpstat -p -d", Ev.exec "lpstat -v"]
  match env.lpstatRes with
  | Except.error msg =>
    { result := Except.error (PrintErr.printersQueryFailed msg)
      trace := t0, fsAfter := env.files, warnings := [] }
  | Except.ok pdv =>
    match parsePrinters pdv.1 pdv.2 with
    | [] =>
      { result := Except.error PrintErr.noPrintersFound
        trace := t0, fsAfter := env.files, warnings := [] }
    | first :: _ =>
      let printer := ((parsePrinters pdv.1 pdv.2).find? (fun p => p.isDefault)).getD first
      let o := printImage env printer.name input options
      { result := o.result.map (fun jobId => (printer.name, jobId))
        trace := t0 ++ o.trace, fsAfter := o.fsAfter, warnings := o.warnings }

/-- The submission command is the `lp ...` invocation (the two `lpstat`
listing commands do not match the `"lp "` prefix). -/
def isSubmissionCmd (c : String) : Bool := ("lp ".data).isPrefixOf c.data

/-- Whether a trace contains a submission (`lp`) command. -/
def hasSubmission (t : List Ev) : Bool :=
  t.any (fun ev => match ev with | Ev.exec c => isSubmissionCmd c | _ => false)

/-- Whether a trace contains a path-validation step. -/
def hasValidation (t : List Ev) : Bool :=
  t.any (fun ev => match ev with | Ev.validate _ => true | _ => false)

/-- The validation errors of `validateImageFile`, as opposed to the later
printer/command errors. -/
def PrintErr.isValidationError : PrintErr → Bool
  | PrintErr.fileNotFound _ => true
  | PrintErr.unsupportedFormat _ => true
  | _ => false

/-! ## The background poller (`watchAndResumePrinters`) -/

/-- The external world one poller tick runs against: the outcome of the
two listing commands, and per printer name the outcomes of
`lpstat -p <name>`, `cupsenable <name>` and `cupsaccept <name>`. -/
structure WatchEnv where
  lpstatRes : Except String (String × String)
  statusOf : String → Except String String
  cupsenableOf : String → Except String Unit
  cupsacceptOf : String → Except String Unit

/-- Model of `isPrinterEnabled`: the status text must contain neither `disabled`
nor `paused` (case-insensitive); a command failure is wrapped. -/
def isPrinterEnabledM (env : WatchEnv) (printerName : String) : Except String Bool :=
  match env.statusOf printerName with
  | Except.error e => Except.error ("Failed to check printer status: " ++ e)
  | Except.ok stdout =>
    Except.ok (!(containsCI stdout "disabled" || containsCI stdout "paused"))

/-- Model of `enablePrinter`: `cupsenable` then `cupsaccept`; either failure is
wrapped into a single error. -/
def enablePrinterM (env : WatchEnv) (printerName : String) : Except String String :=
  match env.cupsenableOf printerName with
  | Except.error e => Except.error ("Failed to enable printer: " ++ e)
  | Except.ok _ =>
    match env.cupsacceptOf printerName with
    | Except.error e => Except.error ("Failed to enable printer: " ++ e)
    | Except.ok _ =>
      Except.ok ("Printer \"" ++ printerName ++ "\" has been enabled and is now accepting jobs")

/-- The per-printer loop of one tick: sequentially check each printer and
resume the disabled ones, stopping at the first raised error.  Returns
the names for which `onResume` fired (in order) and the error, if any,
that aborted the loop. -/
def checkLoop (env : WatchEnv) : List Printer → List String × Option String
  | [] => ([], none)
  | pr :: rest =>
    match isPrinterEnabledM env pr.name with
    | Except.error e => ([], some e)
    | Except.ok true => checkLoop env rest
    | Except.ok false =>
      match enablePrinterM env pr.name with
      | Except.error e => ([], some e)
      | Except.ok _ =>
        let r := checkLoop env rest
        (pr.name :: r.1, r.2)

/-- The body of the `try` block of one tick: list the printers (all of
them, or the caller-supplied subset when it is non-empty), then run the
per-printer loop. -/
def tickWork (env : WatchEnv) (printerNames : Option (List String)) :
    List String × Option String :=
  match env.lpstatRes with
  | Except.error e => ([], some ("Failed to get printers: " ++ e))
  | Except.ok pdv =>
    let allPrinters := parsePrinters pdv.1 pdv.2
    let printersToCheck :=
      match printerNames with
      | some ns => if 0 < ns.length then allPrinters.filter (fun p => ns.contains p.name) else allPrinters
      | none => allPrinters
    checkLoop env printersToCheck

/-- What one tick did: the `onResume` invocations, the `onError`
invocation (if any), and whether the next tick was scheduled. -/
structure TickResult where
  onResumeCalls : List String
  onErrorCall : Option String
  rescheduled : Bool
deriving Repr, DecidableEq

/-- One invocation of the poller's `check` closure.  `isRunning` is the
captured stop flag at entry; `stopDuring` models the stop handle being
invoked from within one of this tick's callbacks (the flag is re-read
before `setTimeout`).  A raised error is passed to `onError` only when
the caller supplied one, and never prevents the re-scheduling test. -/
def runTick (isRunning stopDuring : Bool) (env : WatchEnv)
    (printerNames : Option (List String)) (hasOnError hasOnResume : Bool) : TickResult :=
  if isRunning = false then { onResumeCalls := [], onErrorCall := none, rescheduled := false }
  else
    let w := tickWork env printerNames
    { onResumeCalls := if hasOnResume then w.1 else []
      onErrorCall :=
        match w.2 with
        | some e => if hasOnError then some e else none
        | none => none
      rescheduled := isRunning && !stopDuring }

/-! ## Concrete environments for evaluating the model -/

/-- A two-printer `lpstat -p -d` report whose default destination is the
second listed printer. -/
def pdOut : String :=
  "printer Other is idle.  enabled since Mon\nprinter Canon_TS3300 is idle.  enabled since Mon\nsystem default destination: Canon_TS3300"

/-- The matching `lpstat -v` report. -/
def pvOut : String :=
  "device for Other: ipp://host/ipp\ndevice for Canon_TS3300: usb://Canon/TS3300?serial=1"

/-- A healthy world: one readable image, both printers listed, the `lp`
command acknowledging job 42. -/
def envA : SysEnv :=
  { files := ["/tmp/a.png"]
    tmpdir := "/tmp", timestamp := 1700000000, randomId := "abc12"
    lpstatRes := Except.ok (pdOut, pvOut)
    lpRes := Except.ok "request id is Canon_TS3300-42 (1 file(s))"
    unlinkOk := true }

/-- The same world with an empty filesystem (no readable image files). -/
def envNoFiles : SysEnv :=
  { files := []
    tmpdir := "/tmp", timestamp := 1, randomId := "z9"
    lpstatRes := Except.ok (pdOut, pvOut)
    lpRes := Except.ok "request id is Canon_TS3300-7 (1 file(s))"
    unlinkOk := true }

/-- A poller world where the listing command itself fails. -/
def envWatchFail : WatchEnv :=
  { lpstatRes := Except.error "lpstat: Connection refused"
    statusOf := fun _ => Except.ok "printer idle"
    cupsenableOf := fun _ => Except.ok ()
    cupsacceptOf := fun _ => Except.ok () }

/-- The first record `parsePrinters` yields on `pdOut`/`pvOut`. -/
def otherPrinter : Printer :=
  { name := "Other", uri := "ipp://host/ipp"
    status := "is idle.  enabled since Mon"
    isDefault := false, isUSB := false
    description := "is idle.  enabled since Mon" }

/-- The second record `parsePrinters` yields on `pdOut`/`pvOut` (the
default, USB-connected one). -/
def canonPrinter : Printer :=
  { name := "Canon_TS3300", uri := "usb://Canon/TS3300?serial=1"
    status := "is idle.  enabled since Mon"
    isDefault := true, isUSB := true
    description := "is idle.  enabled since Mon" }

/-! ## Helper lemmas -/

theorem isSubmissionCmd_lpstat_pd : isSubmissionCmd "lpstat -p -d" = false := by decide

theorem isSubmissionCmd_lpstat_v : isSubmissionCmd "lpstat -v" = false := by decide

/-- Every printer record comes from a matched `printer` line. -/
theorem mem_parsePrinters {pd pv : String} {pr : Printer}
    (h : pr ∈ parsePrinters pd pv) :
    ∃ line ∈ splitNl pd.data, ∃ x, matchPrinterLine line = some x ∧
      pr = mkPrinter ((defaultOf pd).getD "") (splitNl pv.data) x := by
  simp only [parsePrinters, List.mem_filterMap, Option.map_eq_some'] at h
  obtain ⟨line, hline, x, hx, hpr⟩ := h
  exact ⟨line, hline, x, hx, hpr.symm⟩

theorem mkPrinter_name (d : String) (dls : List (List Char)) (x : List Char × List Char) :
    (mkPrinter d dls x).name = String.mk x.1 := rfl

theorem mkPrinter_isDefault (d : String) (dls : List (List Char)) (x : List Char × List Char) :
    (mkPrinter d dls x).isDefault = (String.mk x.1 == d) := rfl

/-! ## Claim theorems -/

/-- Claim C5. For every printer name, image path, and options value,
`buildPrintCommand` produces the flags in the deterministic order:
destination, then copies (only when copies > 1), then media (only if
set), then the fixed grayscale flag `ColorModel=Gray` (only if grayscale
is set), then the fixed fit-to-page flag (only if set), then each
open-ended `cupOptions` pair as `-o key=value` in mapping-iteration
order, and finally the quoted file path. -/
theorem claim5_flag_order (printerName imagePath : String) (options : PrintOptions) :
    buildPrintCommand printerName imagePath options =
      String.intercalate " "
        (["lp"] ++ destinationFlags printerName ++ copiesFlags options
          ++ mediaFlags options ++ grayscaleFlags options ++ fitToPageFlags options
          ++ cupFlags options ++ [quoteArg imagePath]) := by
  simp [buildPrintCommand, destinationFlags, copiesFlags, mediaFlags, grayscaleFlags,
    fitToPageFlags, cupFlags, quoteArg, List.append_assoc]

/-- Claim C10. For every call to `printImage` whose input is a byte buffer,
the validation step never runs (no validation event is in the trace), the
staged temporary path always ends in `.png`, and the call can never fail
with an unsupported-format or file-not-found validation error, regardless
of the buffer's content. -/
theorem claim10_buffer_skips_validation (env : SysEnv) (printerName : String)
    (options : PrintOptions) (data : List Nat) :
    hasValidation (printImage env printerName (ImageInput.buffer data) options).trace = false ∧
    (".png".data).isSuffixOf ((tempFileName env).data) = true ∧
    (match (printImage env printerName (ImageInput.buffer data) options).result with
     | Except.error e => e.isValidationError
     | Except.ok _ => false) = false := by
  refine ⟨?_, ?_, ?_⟩
  · simp only [printImage, hasValidation]
    cases hls : env.lpstatRes with
    | error msg => cases hu : env.unlinkOk <;> simp [hu]
    | ok pdv =>
      cases hf : (parsePrinters pdv.1 pdv.2).find? (fun pr => pr.name == printerName) with
      | none => cases hu : env.unlinkOk <;> simp [hf, hu]
      | some pr =>
        cases hlp : env.lpRes with
        | error msg => cases hu : env.unlinkOk <;> simp [hf, hlp, hu]
        | ok stdout => cases hu : env.unlinkOk <;> simp [hf, hlp, hu]
  · rw [List.isSuffixOf_iff_suffix]
    show (".png".data) <:+ ((env.tmpdir ++ "/print-temp-" ++ toString env.timestamp
      ++ "-" ++ env.randomId ++ ".png").data)
    simp only [String.data_append]
    exact List.suffix_append _ _
  · simp only [printImage]
    cases hls : env.lpstatRes with
    | error msg => cases hu : env.unlinkOk <;> simp [hu, PrintErr.isValidationError]
    | ok pdv =>
      cases hf : (parsePrinters pdv.1 pdv.2).find? (fun pr => pr.name == printerName) with
      | none => cases hu : env.unlinkOk <;> simp [hf, hu, PrintErr.isValidationError]
      | some pr =>
        cases hlp : env.lpRes with
        | error msg => cases hu : env.unlinkOk <;> simp [hf, hlp, hu, PrintErr.isValidationError]
        | ok stdout => cases hu : env.unlinkOk <;> simp [hf, hlp, hu, PrintErr.isValidationError]

/-- Claim C9. For every tick of the background poller, an error raised
during the tick's work is passed to the caller-supplied `onError`
callback when one was supplied (and silently dropped otherwise), and the
next tick is still scheduled as long as the stop handle has not been
invoked: no tick error terminates the polling loop. -/
theorem claim9_tick_error_isolation (stopDuring hasOnError hasOnResume : Bool)
    (env : WatchEnv) (printerNames : Option (List String)) (e : String)
    (herr : (tickWork env printerNames).2 = some e) :
    (runTick true stopDuring env printerNames hasOnError hasOnResume).onErrorCall
        = (if hasOnError then some e else none) ∧
    (runTick true stopDuring env printerNames hasOnError hasOnResume).rescheduled
        = !stopDuring := by
  unfold runTick
  simp [herr]

/-- Witness for C9: a tick whose listing command fails reports the
wrapped error to `onError` and still schedules the next tick. -/
theorem claim9_tick_error_isolation_witness :
    (runTick true false envWatchFail none true true).onErrorCall
        = some "Failed to get printers: lpstat: Connection refused" ∧
    (runTick true false envWatchFail none true true).rescheduled = true := by
  have h := claim9_tick_error_isolation false true true envWatchFail none
      "Failed to get printers: lpstat: Connection refused" rfl
  simpa using h

/-- Claim C3. For every buffer-input call to `printImage`, the temporary
file (written under the process temp directory with a
timestamp-plus-random name ending in `.png`) is created before any
command runs and its deletion is the last event on every outcome path;
when the unlink succeeds the temp file is gone from the filesystem
afterwards; the call's result does not depend on whether the unlink
succeeds, a failed unlink being only logged as a warning. -/
theorem claim3_temp_file_lifecycle (env : SysEnv) (printerName : String)
    (options : PrintOptions) (data : List Nat) :
    (printImage env printerName (ImageInput.buffer data) options).trace.head?
        = some (Ev.writeTemp (tempFileName env) data) ∧
    (printImage env printerName (ImageInput.buffer data) options).trace.getLast?
        = some (Ev.unlink (tempFileName env)) ∧
    ((env.tmpdir ++ "/print-temp-").data) <+: ((tempFileName env).data) ∧
    ((".png".data) <:+ ((tempFileName env).data)) ∧
    (env.unlinkOk = true → tempFileName env ∉ env.files →
      tempFileName env ∉ (printImage env printerName (ImageInput.buffer data) options).fsAfter) ∧
    ((printImage { env with unlinkOk := true } printerName (ImageInput.buffer data) options).result
        = (printImage { env with unlinkOk := false } printerName (ImageInput.buffer data) options).result) ∧
    (env.unlinkOk = false →
      (printImage env printerName (ImageInput.buffer data) options).warnings
        = ["Warning: Could not delete temporary file: " ++ tempFileName env]) := by
  refine ⟨?_, ?_, ?_, ?_, ?_, ?_, ?_⟩
  · simp only [printImage]
    cases hu : env.unlinkOk <;> simp [hu]
  · simp only [printImage]
    cases hu : env.unlinkOk <;> simp [hu] <;>
      rw [← List.cons_append, List.getLast?_concat]
  · show ((env.tmpdir ++ "/print-temp-").data) <+:
      ((env.tmpdir ++ "/print-temp-" ++ toString env.timestamp
        ++ "-" ++ env.randomId ++ ".png").data)
    refine ⟨(toString env.timestamp).data ++ "-".data ++ env.randomId.data ++ ".png".data, ?_⟩
    simp [String.data_append, List.append_assoc]
  · show (".png".data) <:+ ((env.tmpdir ++ "/print-temp-" ++ toString env.timestamp
      ++ "-" ++ env.randomId ++ ".png").data)
    simp only [String.data_append]
    exact List.suffix_append _ _
  · intro h1 h2
    simp only [printImage, h1]
    simpa [List.erase_cons_head] using h2
  · cases env
    rfl
  · intro h1
    simp [printImage, h1]

/-- Witness for C3: on the concrete healthy world `envA`, a buffer
submission stages `/tmp/print-temp-1700000000-abc12.png`, deletes it
last, and leaves it absent from the filesystem. -/
theorem claim3_temp_file_lifecycle_witness :
    (printImage envA "Canon_TS3300" (ImageInput.buffer [9, 9]) {}).trace.getLast?
        = some (Ev.unlink "/tmp/print-temp-1700000000-abc12.png") ∧
    "/tmp/print-temp-1700000000-abc12.png"
        ∉ (printImage envA "Canon_TS3300" (ImageInput.buffer [9, 9]) {}).fsAfter := by
  have h := claim3_temp_file_lifecycle envA "Canon_TS3300" {} [9, 9]
  exact ⟨h.2.1, h.2.2.2.2.1 rfl (by decide)⟩

/-- Claim C1, counterexample. The claim says a path with an extension
outside the allow-list fails with an unsupported-format error; but for a
*nonexistent* path with extension `.xyz` the `fs.access` check fires
first and `printImage` fails with the file-not-found error instead, so
the claim as stated is false. -/
theorem claim1_counterexample :
    supportedFormats.contains (extLower "/missing.xyz") = false ∧
    ((printImage envNoFiles "Canon_TS3300" (ImageInput.path "/missing.xyz") {}).result
        == Except.error (PrintErr.unsupportedFormat (extLower "/missing.xyz"))) = false ∧
    (printImage envNoFiles "Canon_TS3300" (ImageInput.path "/missing.xyz") {}).result
        = Except.error (PrintErr.fileNotFound "/missing.xyz") := by
  refine ⟨by decide, by decide, by decide⟩

/-- Claim C1, amended. For every path-input submission whose path is
readable but whose extension is outside the fixed allow-list
(case-insensitive), validation fails with the unsupported-format error
before any submission command is issued; and for every path that does
not exist (in particular one whose extension is inside the allow-list),
validation fails with the file-not-found error, again before any
submission command is issued. -/
theorem claim1_validation_errors (env : SysEnv) (printerName p : String)
    (options : PrintOptions) :
    (p ∈ env.files → supportedFormats.contains (extLower p) = false →
      (printImage env printerName (ImageInput.path p) options).result
          = Except.error (PrintErr.unsupportedFormat (extLower p)) ∧
      hasSubmission (printImage env printerName (ImageInput.path p) options).trace = false) ∧
    (p ∉ env.files →
      (printImage env printerName (ImageInput.path p) options).result
          = Except.error (PrintErr.fileNotFound p) ∧
      hasSubmission (printImage env printerName (ImageInput.path p) options).trace = false) := by
  constructor
  · intro hmem hext
    simp only [List.elem_eq_mem, decide_eq_false_iff_not] at hext
    constructor <;> simp [printImage, validateImageFile, hasSubmission, hmem, hext]
  · intro hmem
    constructor <;> simp [printImage, validateImageFile, hasSubmission, hmem]

/-- Witness for the amended C1: a readable `.bmp` file fails with the
unsupported-format error, and a nonexistent `.png` path fails with the
file-not-found error; neither issues an `lp` command. -/
theorem claim1_validation_errors_witness :
    ((printImage { envA with files := ["/x/a.bmp"] } "Canon_TS3300"
        (ImageInput.path "/x/a.bmp") {}).result
      = Except.error (PrintErr.unsupportedFormat ".bmp") ∧
     hasSubmission ((printImage { envA with files := ["/x/a.bmp"] } "Canon_TS3300"
        (ImageInput.path "/x/a.bmp") {}).trace) = false) ∧
    ((printImage envNoFiles "Canon_TS3300" (ImageInput.path "/gone.png") {}).result
      = Except.error (PrintErr.fileNotFound "/gone.png") ∧
     hasSubmission ((printImage envNoFiles "Canon_TS3300"
        (ImageInput.path "/gone.png") {}).trace) = false) := by
  constructor
  · have h := (claim1_validation_errors { envA with files := ["/x/a.bmp"] }
      "Canon_TS3300" "/x/a.bmp" {}).1 (by decide) (by decide)
    simpa using h
  · exact (claim1_validation_errors envNoFiles "Canon_TS3300" "/gone.png" {}).2 (by decide)

/-- Claim C2. For every submission — path or buffer input — that reaches
the directory query (i.e. whose path input, if any, passes validation),
if the target printer name is absent from the parsed listing then the
operation fails with the printer-not-found error and no submission
(`lp`) command is ever issued. -/
theorem claim2_printer_not_found (env : SysEnv) (printerName : String)
    (input : ImageInput) (options : PrintOptions) (pd pv : String)
    (hls : env.lpstatRes = Except.ok (pd, pv))
    (hval : ∀ p, input = ImageInput.path p → validateImageFile env.files p = Except.ok ())
    (habs : (parsePrinters pd pv).find? (fun pr => pr.name == printerName) = none) :
    (printImage env printerName input options).result
        = Except.error (PrintErr.printerNotFound printerName) ∧
    hasSubmission (printImage env printerName input options).trace = false := by
  cases input with
  | buffer data =>
    constructor <;>
      cases hu : env.unlinkOk <;>
        simp [printImage, hasSubmission, hls, habs, hu,
          isSubmissionCmd_lpstat_pd, isSubmissionCmd_lpstat_v]
  | path p =>
    have hv := hval p rfl
    constructor <;>
      simp [printImage, hasSubmission, hls, habs, hv,
        isSubmissionCmd_lpstat_pd, isSubmissionCmd_lpstat_v]

/-- Witness for C2: submitting to the absent printer `Ghost` in the
concrete world `envA` fails with printer-not-found and issues no `lp`
command, for both a validated path input and a buffer input. -/
theorem claim2_printer_not_found_witness :
    ((printImage envA "Ghost" (ImageInput.path "/tmp/a.png") {}).result
        = Except.error (PrintErr.printerNotFound "Ghost") ∧
     hasSubmission (printImage envA "Ghost" (ImageInput.path "/tmp/a.png") {}).trace = false) ∧
    ((printImage envA "Ghost" (ImageInput.buffer [0]) {}).result
        = Except.error (PrintErr.printerNotFound "Ghost") ∧
     hasSubmission (printImage envA "Ghost" (ImageInput.buffer [0]) {}).trace = false) := by
  constructor
  · exact claim2_printer_not_found envA "Ghost" (ImageInput.path "/tmp/a.png") {} pdOut pvOut
      rfl (by intro p hp; cases hp; decide) (by decide)
  · exact claim2_printer_not_found envA "Ghost" (ImageInput.buffer [0]) {} pdOut pvOut
      rfl (by intro p hp; cases hp) (by decide)

/-- The result of `printImage` factored through `submitResult`. -/
theorem printImage_result_eq (env : SysEnv) (printerName : String)
    (input : ImageInput) (options : PrintOptions) :
    (printImage env printerName input options).result =
      (match input with
       | ImageInput.buffer _ => submitResult env printerName
       | ImageInput.path p =>
         match validateImageFile env.files p with
         | Except.ok _ => submitResult env printerName
         | Except.error e => Except.error e) := by
  cases input with
  | buffer data =>
    simp only [printImage, submitResult]
    cases hls : env.lpstatRes with
    | error msg => cases hu : env.unlinkOk <;> simp [hu, hls]
    | ok pdv =>
      cases hf : (parsePrinters pdv.1 pdv.2).find? (fun pr => pr.name == printerName) with
      | none => cases hu : env.unlinkOk <;> simp [hu, hls, hf]
      | some pr =>
        cases hlp : env.lpRes <;> cases hu : env.unlinkOk <;> simp [hu, hls, hf, hlp]
  | path p =>
    cases hv : validateImageFile env.files p with
    | error e => simp [printImage, hv]
    | ok u =>
      simp only [printImage, submitResult, hv]
      cases hls : env.lpstatRes with
      | error msg => simp [hls]
      | ok pdv =>
        cases hf : (parsePrinters pdv.1 pdv.2).find? (fun pr => pr.name == printerName) with
        | none => simp [hls, hf]
        | some pr => cases hlp : env.lpRes <;> simp [hls, hf, hlp]

/-- Claim C4. The function `printImage` extracts the job identifier from the submission
command's output by matching the pattern `request id is <name>-<digits>`
and returning the digit group; for every output with no match it returns
the trimmed raw output verbatim; in particular the acknowledgement
`request id is Canon_TS3300-42 (1 file(s))` yields job id `42`. -/
theorem claim4_job_id_extraction :
    (∀ (env : SysEnv) (printerName : String) (input : ImageInput)
        (options : PrintOptions) (out jobId : String),
      env.lpRes = Except.ok out →
      (printImage env printerName input options).result = Except.ok jobId →
      jobId = extractJobId out) ∧
    (∀ s : String, matchRequestId s.data = none →
      extractJobId s = String.mk (trimChars s.data)) ∧
    extractJobId "request id is Canon_TS3300-42 (1 file(s))" = "42" ∧
    extractJobId "   odd lp output   " = "odd lp output" := by
  refine ⟨?_, ?_, by decide, by decide⟩
  · intro env printerName input options out jobId hlp hres
    rw [printImage_result_eq] at hres
    have hsub : ∀ (h : submitResult env printerName = Except.ok jobId), jobId = extractJobId out := by
      intro h
      simp only [submitResult] at h
      cases hls : env.lpstatRes with
      | error msg => simp [hls] at h
      | ok pdv =>
        simp only [hls] at h
        cases hf : (parsePrinters pdv.1 pdv.2).find? (fun pr => pr.name == printerName) with
        | none => simp [hf] at h
        | some pr =>
          simp only [hf, hlp] at h
          exact (Except.ok.injEq .. ▸ h).symm
    cases input with
    | buffer data => exact hsub hres
    | path p =>
      replace hres :
          (match validateImageFile env.files p with
           | Except.ok _ => submitResult env printerName
           | Except.error e => Except.error e) = Except.ok jobId := hres
      cases hv : validateImageFile env.files p with
      | ok u => rw [hv] at hres; exact hsub hres
      | error e => rw [hv] at hres; cases hres
  · intro s hnone
    simp [extractJobId, hnone]

/-- Witness for C4: in the concrete world `envA` the submission succeeds
and the returned job id is exactly the extraction from the acknowledged
output. -/
theorem claim4_job_id_extraction_witness :
    "42" = extractJobId "request id is Canon_TS3300-42 (1 file(s))" :=
  claim4_job_id_extraction.1 envA "Canon_TS3300" (ImageInput.path "/tmp/a.png") {}
    "request id is Canon_TS3300-42 (1 file(s))" "42" rfl (by decide)

/-- Claim C6. The function `printToUSB` fails with the no-printers error when the
directory listing parses to an empty list; otherwise it selects the
default printer if one exists, else the first in list order, and
delegates the submission to `printImage` with that printer's name. -/
theorem claim6_print_to_usb (env : SysEnv) (input : ImageInput) (options : PrintOptions)
    (pd pv : String) (hls : env.lpstatRes = Except.ok (pd, pv)) :
    (parsePrinters pd pv = [] →
      (printToUSB env input options).result = Except.error PrintErr.noPrintersFound) ∧
    (∀ first rest, parsePrinters pd pv = first :: rest →
      (printToUSB env input options).result =
        (printImage env
            (((parsePrinters pd pv).find? (fun pr => pr.isDefault)).getD first).name
            input options).result.map
          (fun jobId =>
            ((((parsePrinters pd pv).find? (fun pr => pr.isDefault)).getD first).name,
              jobId))) := by
  constructor
  · intro h
    simp [printToUSB, hls, h]
  · intro first rest h
    simp [printToUSB, hls, h]

/-- Witness for C6 (the spec scenario): with default destination
`Canon_TS3300` listed second, `printToUSB` selects `Canon_TS3300` even
though `Other` appears first, and returns its job id. -/
theorem claim6_print_to_usb_witness :
    (printToUSB envA (ImageInput.buffer [7]) {}).result
        = Except.ok ("Canon_TS3300", "42") := by
  have h := (claim6_print_to_usb envA (ImageInput.buffer [7]) {} pdOut pvOut rfl).2
      otherPrinter [canonPrinter] (by decide)
  rw [h]
  decide

/-- The names carried by the parsed records are exactly `parsedNames`. -/
theorem parsePrinters_map_name (pd pv : String) :
    (parsePrinters pd pv).map Printer.name = parsedNames pd := by
  simp only [parsePrinters, parsedNames, List.map_filterMap]
  congr 1
  funext line
  cases matchPrinterLine line <;> simp [mkPrinter_name]

/-- A parsed record's default flag is the name test against the parsed
default destination (empty when the default line is absent). -/
theorem parsePrinters_isDefault {pd pv : String} {pr : Printer}
    (h : pr ∈ parsePrinters pd pv) :
    pr.isDefault = (pr.name == (defaultOf pd).getD "") := by
  obtain ⟨line, _, x, _, rfl⟩ := mem_parsePrinters h
  rfl

/-- Counting default-flagged records equals counting matched names equal
to the parsed default destination. -/
theorem countP_parse_aux (d : String) (dls : List (List Char)) (lines : List (List Char)) :
    ((lines.filterMap (fun l => (matchPrinterLine l).map (mkPrinter d dls))).countP
        (fun pr => pr.isDefault))
      = ((lines.filterMap (fun l => (matchPrinterLine l).map (fun x => String.mk x.1))).countP
        (fun n => n == d)) := by
  induction lines with
  | nil => rfl
  | cons l t ih =>
    cases hm : matchPrinterLine l with
    | none => simp [List.filterMap_cons, hm, ih]
    | some x =>
      simp [List.filterMap_cons, hm, List.countP_cons, ih,
        mkPrinter_isDefault, mkPrinter_name]

/-- Lemma `countP_parse_aux` restated on `parsePrinters` and `parsedNames`. -/
theorem countP_parse (pd pv : String) :
    (parsePrinters pd pv).countP (fun pr => pr.isDefault)
      = (parsedNames pd).countP (fun n => n == (defaultOf pd).getD "") :=
  countP_parse_aux ((defaultOf pd).getD "") (splitNl pv.data) (splitNl pd.data)

/-- In a duplicate-free list containing `P`, exactly one element tests
equal to `P`. -/
theorem countP_beq_eq_one {l : List String} {P : String}
    (hn : l.Nodup) (hm : P ∈ l) :
    l.countP (fun n => n == P) = 1 := by
  induction l with
  | nil => cases hm
  | cons a t ih =>
    rw [List.countP_cons]
    rcases List.mem_cons.mp hm with rfl | hmt
    · have hz : t.countP (fun n => n == P) = 0 := by
        rw [List.countP_eq_zero]
        intro b hb
        simp only [beq_iff_eq]
        intro hbP
        exact (List.nodup_cons.mp hn).1 (hbP ▸ hb)
      simp [hz]
    · have ha : (a == P) = false := by
        have hne : a ≠ P := fun h => (List.nodup_cons.mp hn).1 (h ▸ hmt)
        simpa using hne
      rw [ih (List.nodup_cons.mp hn).2 hmt, ha]
      simp

/-- Claim C7, counterexample. The claim says that whenever the
default-destination line names printer `P`, exactly one returned record
has the default flag set; but when no `printer` line mentions `P` (here:
a report consisting only of the default line), `getAllPrinters` returns
no record at all, so zero records carry the flag. -/
theorem claim7_counterexample :
    defaultOf "system default destination: A" = some "A" ∧
    ((((parsePrinters "system default destination: A" "").filter
        (fun pr => pr.isDefault)).length) == 1) = false ∧
    (((parsePrinters "system default destination: A" "").filter
        (fun pr => pr.isDefault)).length) = 0 :=
  ⟨by decide, by decide, by decide⟩

/-- Claim C7, amended. When the default-destination line names `P`, every
returned record with the default flag set has name `P`; and when the
`printer` lines carry pairwise-distinct names among which `P` occurs,
exactly one returned record has the flag set. -/
theorem claim7_default_flag (pd pv P : String) (hdef : defaultOf pd = some P) :
    (∀ pr ∈ parsePrinters pd pv, pr.isDefault = true → pr.name = P) ∧
    ((parsedNames pd).Nodup → P ∈ parsedNames pd →
      ((parsePrinters pd pv).filter (fun pr => pr.isDefault)).length = 1) := by
  constructor
  · intro pr hpr hd
    have h := parsePrinters_isDefault hpr
    rw [hdef, Option.getD_some, hd] at h
    exact beq_iff_eq.mp h.symm
  · intro hn hm
    rw [← List.countP_eq_length_filter]
    have h1 := countP_parse pd pv
    simp only [hdef, Option.getD_some] at h1
    rw [h1]
    exact countP_beq_eq_one hn hm

/-- Witness for the amended C7: on the concrete two-printer report whose
default line names `Canon_TS3300`, exactly one parsed record carries the
default flag. -/
theorem claim7_default_flag_witness :
    ((parsePrinters pdOut pvOut).filter (fun pr => pr.isDefault)).length = 1 :=
  (claim7_default_flag pdOut pvOut "Canon_TS3300" (by decide)).2 (by decide) (by decide)

/-- Claim C8. For every record returned by the directory parse, the USB
flag equals the case-insensitive substring test of the record's transport
locator against `usb` — in particular it is `false` for the empty locator
produced when no device line matches. -/
theorem claim8_usb_flag (pd pv : String) :
    ∀ pr ∈ parsePrinters pd pv,
      pr.isUSB = containsCI pr.uri "usb" ∧ (pr.uri = "" → pr.isUSB = false) := by
  intro pr hpr
  obtain ⟨line, _, x, _, rfl⟩ := mem_parsePrinters hpr
  have husb : (mkPrinter ((defaultOf pd).getD "") (splitNl pv.data) x).isUSB
      = containsCI (mkPrinter ((defaultOf pd).getD "") (splitNl pv.data) x).uri "usb" := by
    simp only [mkPrinter, containsCI]
    cases hfind : (splitNl pv.data).find?
        (fun d => includesChars d (String.mk x.1).data) with
    | none => simp [hfind]; decide
    | some dl =>
      cases hm : matchDeviceFor dl with
      | none => simp [hfind, hm]; decide
      | some um => simp [hfind, hm, lowerChars]
  refine ⟨husb, fun huri => ?_⟩
  rw [husb, huri]
  decide

/-- Witness for C8: the concrete parse of `pdOut`/`pvOut` contains the
USB-connected record `canonPrinter`, whose flag matches the substring
test. -/
theorem claim8_usb_flag_witness :
    canonPrinter ∈ parsePrinters pdOut pvOut ∧
    (canonPrinter.isUSB = containsCI canonPrinter.uri "usb" ∧
      (canonPrinter.uri = "" → canonPrinter.isUSB = false)) :=
  ⟨by decide, claim8_usb_flag pdOut pvOut canonPrinter (by decide)⟩

end PrintTs
